import Mathlib

/-!
Shallow embedding of the sigtool library (sigtool.go): extraction and
validation of the PKCS#7 digital-signature region of a Windows PE file.

The file is modelled as a list of bytes; the file system is a partial map
from paths to files; the PE header parser (Go standard library debug/pe)
and the PKCS#7 parser/verifier (go.mozilla.org/pkcs7) are external
collaborators, modelled as parameters. File-system side effects are
recorded as an explicit event trace so that properties of the form
"fails before any read is issued" can be stated.

All uint32 arithmetic of the source is rendered on Nat with explicit
reduction modulo 2^32 exactly where the Go code wraps.
-/

/-- Go constant SecurityDirHeaderSize: the PKCS#7 payload starts after an
8-byte security directory header. -/
def SecurityDirHeaderSize : Nat := 8

/-- Go constant MaxSignatureSize: maximum accepted declared signature size
(10 MiB). -/
def MaxSignatureSize : Nat := 10 * 1024 * 1024

/-- Modulus of 32-bit unsigned arithmetic. -/
def U32 : Nat := 4294967296

/-- Go unicode.IsSpace, as used by strings.TrimSpace on the path argument. -/
def isGoSpace (c : Char) : Bool :=
  c.toNat = 9 || c.toNat = 10 || c.toNat = 11 || c.toNat = 12 || c.toNat = 13 ||
  c.toNat = 32 || c.toNat = 133 || c.toNat = 160 || c.toNat = 5760 ||
  (8192 ≤ c.toNat && c.toNat ≤ 8202) || c.toNat = 8232 || c.toNat = 8233 ||
  c.toNat = 8239 || c.toNat = 8287 || c.toNat = 12288

/-- Go strings.TrimSpace: drop leading and trailing white space. -/
def trimSpace (s : String) : String :=
  ⟨((s.data.dropWhile isGoSpace).reverse.dropWhile isGoSpace).reverse⟩

/-- Outcome of the external PE header parse (debug/pe) as consumed by
ExtractDigitalSignature: parse failure, an optional header that is neither
OptionalHeader32 nor OptionalHeader64, or the security data-directory entry
(VirtualAddress, Size) read from either header form. -/
inductive PEParseResult where
  | parseFailedR : PEParseResult
  | unsupported : PEParseResult
  | headers (vAddr size : Nat) : PEParseResult
deriving DecidableEq

/-- File-system side effects performed by the library. -/
inductive FSEvent where
  | openEv (path : String) : FSEvent
  | statEv : FSEvent
  | readEv (off len : Nat) : FSEvent
deriving DecidableEq

/-- The distinct error outcomes of ExtractDigitalSignature, one per distinct
error construction in the source. -/
inductive ExtractError where
  | invalidArgument : ExtractError
  | openFailed : ExtractError
  | statFailed : ExtractError
  | peParseFailed : ExtractError
  | unsupportedHeader : ExtractError
  | notSigned : ExtractError
  | sizeLimitExceeded : ExtractError
  | invalidOffset : ExtractError
  | regionExceedsFile : ExtractError
  | readFailed : ExtractError
  | incompleteRead : ExtractError
deriving DecidableEq

/-- Error outcomes of IsValidDigitalSignature: its own path check, a wrapped
extraction error, a PKCS#7 structural parse failure, or a cryptographic
verification failure. -/
inductive ValidationError where
  | invalidArgument : ValidationError
  | extractionFailed (e : ExtractError) : ValidationError
  | structureInvalid : ValidationError
  | verificationFailed : ValidationError
deriving DecidableEq

/-- The external PKCS#7 collaborator (go.mozilla.org/pkcs7): whether a byte
sequence parses as signed data, and whether it then verifies. -/
structure Pkcs7Oracle where
  parses : List Nat → Bool
  verifies : List Nat → Bool

/-- os.File.ReadAt on a static file: the bytes actually obtained when
reading len bytes at offset off (short exactly when the range passes
end-of-file). -/
def readAt (file : List Nat) (off len : Nat) : List Nat :=
  (file.drop off).take len

/-- Source line 184: signatureOffset := int64(vAddr + SecurityDirHeaderSize).
The addition is uint32 addition, so it wraps modulo 2^32 before the widening
conversion to int64; the int64 value of a uint32 is the same Nat. -/
def signatureOffset (vAddr : Nat) : Nat :=
  (vAddr + SecurityDirHeaderSize) % U32

/-- Source line 183: signatureDataSize := size - SecurityDirHeaderSize.
Wrapping uint32 subtraction (for size < 2^32 this equals Go uint32 size-8). -/
def signatureDataSize (size : Nat) : Nat :=
  (size + (U32 - SecurityDirHeaderSize)) % U32

/-- ExtractDigitalSignature (sigtool.go lines 131-205), parameterised by the
external PE parser and the file system. Returns the result together with the
trace of file-system events (open, stat, positioned read). The check
signatureOffset < 0 of line 186 is rendered literally; on the int64 image of
a uint32 it can never hold. -/
def ExtractDigitalSignature (parsePE : List Nat → PEParseResult)
    (fs : String → Option (List Nat)) (filePath : String) :
    Except ExtractError (List Nat) × List FSEvent :=
  if trimSpace filePath = "" then (.error .invalidArgument, [])
  else
    match fs filePath with
    | none => (.error .openFailed, [.openEv filePath])
    | some file =>
      match parsePE file with
      | .parseFailedR => (.error .peParseFailed, [.openEv filePath, .statEv])
      | .unsupported => (.error .unsupportedHeader, [.openEv filePath, .statEv])
      | .headers vAddr size =>
        if vAddr = 0 ∨ size = 0 then
          (.error .notSigned, [.openEv filePath, .statEv])
        else if MaxSignatureSize < size then
          (.error .sizeLimitExceeded, [.openEv filePath, .statEv])
        else if signatureOffset vAddr < 0 ∨ file.length ≤ signatureOffset vAddr then
          (.error .invalidOffset, [.openEv filePath, .statEv])
        else if file.length < signatureOffset vAddr + signatureDataSize size then
          (.error .regionExceedsFile, [.openEv filePath, .statEv])
        else if (readAt file (signatureOffset vAddr) (signatureDataSize size)).length ≠ signatureDataSize size then
          (.error .incompleteRead,
           [.openEv filePath, .statEv, .readEv (signatureOffset vAddr) (signatureDataSize size)])
        else
          (.ok (readAt file (signatureOffset vAddr) (signatureDataSize size)),
           [.openEv filePath, .statEv, .readEv (signatureOffset vAddr) (signatureDataSize size)])

/-- IsValidDigitalSignature (sigtool.go lines 234-255): check the path,
extract, hand the bytes to the PKCS#7 collaborator, verify. -/
def IsValidDigitalSignature (parsePE : List Nat → PEParseResult)
    (oracle : Pkcs7Oracle) (fs : String → Option (List Nat)) (filePath : String) :
    Except ValidationError Unit × List FSEvent :=
  if trimSpace filePath = "" then (.error .invalidArgument, [])
  else
    match ExtractDigitalSignature parsePE fs filePath with
    | (.error e, evs) => (.error (.extractionFailed e), evs)
    | (.ok buf, evs) =>
      if oracle.parses buf then
        if oracle.verifies buf then (.ok (), evs)
        else (.error .verificationFailed, evs)
      else (.error .structureInvalid, evs)

/-- A file system holding exactly one file. -/
def constFS (path : String) (file : List Nat) : String → Option (List Nat) :=
  fun p => if p = path then some file else none

/-- A PE parser returning a fixed result on every input. -/
def constPE (r : PEParseResult) : List Nat → PEParseResult :=
  fun _ => r

/-- Path used by the concrete witnesses and counterexamples. -/
def samplePath : String := "pe.exe"

/-- A path whose trimmed form is empty short-circuits extraction with no
file-system event. -/
theorem extract_trim_empty (parsePE : List Nat → PEParseResult)
    (fs : String → Option (List Nat)) (p : String) (h : trimSpace p = "") :
    ExtractDigitalSignature parsePE fs p = (.error .invalidArgument, []) := by
  unfold ExtractDigitalSignature
  rw [if_pos h]

/-- A string all of whose characters are white space trims to the empty
string. -/
theorem trimSpace_of_all_space (s : String) (h : ∀ c ∈ s.data, isGoSpace c = true) :
    trimSpace s = "" := by
  have h1 : s.data.dropWhile isGoSpace = [] := List.dropWhile_eq_nil_iff.mpr h
  unfold trimSpace
  rw [h1]
  rfl

/-- Every positioned read issued by extraction lies entirely inside the
opened file: the offset plus the length never passes end-of-file. -/
theorem reads_in_bounds (parsePE : List Nat → PEParseResult)
    (fs : String → Option (List Nat)) (p : String) (off len : Nat)
    (h : FSEvent.readEv off len ∈ (ExtractDigitalSignature parsePE fs p).2) :
    ∃ file, fs p = some file ∧ off + len ≤ file.length := by
  unfold ExtractDigitalSignature at h
  split at h
  · simp at h
  · split at h
    · simp at h
    · rename_i file hfs
      split at h
      · simp at h
      · simp at h
      · split at h
        · simp at h
        · split at h
          · simp at h
          · split at h
            · simp at h
            · split at h
              · simp at h
              · split at h
                · simp at h
                  obtain ⟨h1, h2⟩ := h
                  exact ⟨file, hfs, by omega⟩
                · simp at h
                  obtain ⟨h1, h2⟩ := h
                  exact ⟨file, hfs, by omega⟩

/-- A PKCS#7 collaborator that parses nothing. -/
def oracleReject : Pkcs7Oracle := ⟨fun _ => false, fun _ => false⟩

/-- A PKCS#7 collaborator that parses everything and verifies nothing. -/
def oracleParseOnly : Pkcs7Oracle := ⟨fun _ => true, fun _ => false⟩

/-- A PKCS#7 collaborator that parses and verifies everything. -/
def oracleAccept : Pkcs7Oracle := ⟨fun _ => true, fun _ => true⟩

/-- A path consisting only of white space. -/
def blankPath : String := " \t "

/-- Claim C6: a well-formed container whose security-directory entry is
exactly (0, 0) makes ExtractDigitalSignature fail with the not-signed
error, not with any other error and not with success. -/
theorem C6_zero_entry_not_signed (parsePE : List Nat → PEParseResult)
    (fs : String → Option (List Nat)) (p : String) (file : List Nat)
    (hp : ¬ trimSpace p = "") (hfs : fs p = some file)
    (hpe : parsePE file = .headers 0 0) :
    (ExtractDigitalSignature parsePE fs p).1 = .error .notSigned := by
  unfold ExtractDigitalSignature
  rw [if_neg hp]
  simp only [hfs, hpe]
  simp

/-- Witness for C6 at a concrete container. -/
theorem C6_witness :
    (ExtractDigitalSignature (constPE (.headers 0 0)) (constFS samplePath (List.range 20))
      samplePath).1 = .error .notSigned :=
  C6_zero_entry_not_signed _ _ _ (List.range 20) (by decide) rfl rfl

/-- Counterexample for C7: a directory entry with non-zero offset 5 and zero
size is reported as not signed, not as a malformed security directory (the
code has no such error outcome at all). -/
theorem C7_counterexample :
    (ExtractDigitalSignature (constPE (.headers 5 0)) (constFS samplePath (List.range 20))
      samplePath).1 = .error .notSigned := rfl

/-- Claim C7 as amended: an entry with exactly one of fileOffset and size
zero makes ExtractDigitalSignature fail with the not-signed error; the code
treats any zero field as the sole unsigned indicator and has no separate
malformed-directory error. -/
theorem C7_partial_zero_not_signed (parsePE : List Nat → PEParseResult)
    (fs : String → Option (List Nat)) (p : String) (file : List Nat)
    (vAddr size : Nat)
    (hp : ¬ trimSpace p = "") (hfs : fs p = some file)
    (hpe : parsePE file = .headers vAddr size)
    (h : (vAddr = 0 ∧ size ≠ 0) ∨ (vAddr ≠ 0 ∧ size = 0)) :
    (ExtractDigitalSignature parsePE fs p).1 = .error .notSigned := by
  unfold ExtractDigitalSignature
  rw [if_neg hp]
  simp only [hfs, hpe]
  rw [if_pos (by omega)]

/-- Witness for the amended C7 at a concrete container. -/
theorem C7_witness :
    (ExtractDigitalSignature (constPE (.headers 0 12)) (constFS samplePath (List.range 20))
      samplePath).1 = .error .notSigned :=
  C7_partial_zero_not_signed _ _ _ (List.range 20) 0 12 (by decide) rfl rfl
    (Or.inl ⟨rfl, by decide⟩)

/-- Claim C8: a path that is empty or consists only of white space makes
both ExtractDigitalSignature and IsValidDigitalSignature fail with the
invalid-argument error, and the empty event trace shows that no open, stat
or read is attempted. -/
theorem C8_blank_path_invalid_argument (parsePE : List Nat → PEParseResult)
    (oracle : Pkcs7Oracle) (fs : String → Option (List Nat)) (p : String)
    (h : ∀ c ∈ p.data, isGoSpace c = true) :
    ExtractDigitalSignature parsePE fs p = (.error .invalidArgument, []) ∧
    IsValidDigitalSignature parsePE oracle fs p = (.error .invalidArgument, []) := by
  have ht : trimSpace p = "" := trimSpace_of_all_space p h
  refine ⟨extract_trim_empty parsePE fs p ht, ?_⟩
  unfold IsValidDigitalSignature
  rw [if_pos ht]

/-- Witness for C8 at a concrete blank path. -/
theorem C8_witness :
    ExtractDigitalSignature (constPE .parseFailedR) (constFS samplePath (List.range 20))
      blankPath = (.error .invalidArgument, []) ∧
    IsValidDigitalSignature (constPE .parseFailedR) oracleAccept
      (constFS samplePath (List.range 20)) blankPath = (.error .invalidArgument, []) :=
  C8_blank_path_invalid_argument _ oracleAccept _ blankPath (by decide)

/-- Counterexample for C4: an entry declaring size 10485761, one byte above
MaxSignatureSize, together with fileOffset 0, is reported as not signed
rather than as exceeding the size limit: the zero-entry check runs first. -/
theorem C4_counterexample :
    MaxSignatureSize < 10485761 ∧
    (ExtractDigitalSignature (constPE (.headers 0 10485761))
      (constFS samplePath (List.range 20)) samplePath).1 = .error .notSigned :=
  ⟨by decide, rfl⟩

/-- Claim C4 as amended: an entry whose declared size exceeds
MaxSignatureSize makes ExtractDigitalSignature fail with the size-limit
error regardless of file contents, provided its fileOffset is non-zero;
with a zero fileOffset the not-signed check fires first. -/
theorem C4_size_limit (parsePE : List Nat → PEParseResult)
    (fs : String → Option (List Nat)) (p : String) (file : List Nat)
    (vAddr size : Nat)
    (hp : ¬ trimSpace p = "") (hfs : fs p = some file)
    (hpe : parsePE file = .headers vAddr size)
    (hv : vAddr ≠ 0) (hs : MaxSignatureSize < size) :
    (ExtractDigitalSignature parsePE fs p).1 = .error .sizeLimitExceeded := by
  have hs0 : size ≠ 0 := by
    simp only [MaxSignatureSize] at hs
    omega
  unfold ExtractDigitalSignature
  rw [if_neg hp]
  simp only [hfs, hpe]
  rw [if_neg (by omega), if_pos hs]

/-- Witness for the amended C4 at a concrete container. -/
theorem C4_witness :
    (ExtractDigitalSignature (constPE (.headers 64 10485761))
      (constFS samplePath (List.range 20)) samplePath).1 = .error .sizeLimitExceeded :=
  C4_size_limit _ _ _ (List.range 20) 64 10485761 (by decide) rfl rfl
    (by decide) (by decide)

/-- Counterexample for C5: the declared region of the entry (12, 16) in a
10-byte file passes end-of-file (signatureOffset 20 plus payloadSize 8
exceeds length 10), yet extraction fails with the invalid-offset error, not
with the region-exceeds-file error: the offset check fires first. -/
theorem C5_counterexample :
    (List.range 10).length < signatureOffset 12 + signatureDataSize 16 ∧
    (ExtractDigitalSignature (constPE (.headers 12 16)) (constFS samplePath (List.range 10))
      samplePath).1 = .error .invalidOffset :=
  ⟨by decide, rfl⟩

/-- Claim C5 as amended: when the entry is non-zero, the size is within the
limit and the computed signatureOffset lies strictly inside the file, a
declared region with signatureOffset plus payloadSize past end-of-file
fails with the region-exceeds-file error and the event trace shows that no
read is issued; moreover every read the extractor ever issues, on any
input, lies entirely inside the file. -/
theorem C5_region_exceeds (parsePE : List Nat → PEParseResult)
    (fs : String → Option (List Nat)) (p : String) (file : List Nat)
    (vAddr size : Nat)
    (hp : ¬ trimSpace p = "") (hfs : fs p = some file)
    (hpe : parsePE file = .headers vAddr size)
    (hv : vAddr ≠ 0) (hs : size ≠ 0) (hmax : ¬ MaxSignatureSize < size)
    (ho : signatureOffset vAddr < file.length)
    (hr : file.length < signatureOffset vAddr + signatureDataSize size) :
    ExtractDigitalSignature parsePE fs p
      = (.error .regionExceedsFile, [.openEv p, .statEv]) ∧
    (∀ parsePE2 fs2 p2 off len,
      FSEvent.readEv off len ∈ (ExtractDigitalSignature parsePE2 fs2 p2).2 →
      ∃ f2, fs2 p2 = some f2 ∧ off + len ≤ f2.length) := by
  constructor
  · unfold ExtractDigitalSignature
    rw [if_neg hp]
    simp only [hfs, hpe]
    rw [if_neg (by omega), if_neg hmax, if_neg (by omega), if_pos hr]
  · intro pf2 fs2 p2 off len h
    exact reads_in_bounds pf2 fs2 p2 off len h

/-- Witness for the amended C5 at a concrete container. -/
theorem C5_witness :
    ExtractDigitalSignature (constPE (.headers 4 16)) (constFS samplePath (List.range 13))
      samplePath = (.error .regionExceedsFile, [.openEv samplePath, .statEv]) :=
  (C5_region_exceeds _ _ _ (List.range 13) 4 16 (by decide) rfl rfl (by decide) (by decide)
    (by decide) (by decide) (by decide)).1

/-- Counterexample for C3: the entry (4, 4) declares a size smaller than
the 8-byte sub-header; payloadSize is computed by wrapping uint32
subtraction as 4294967292, and extraction fails with the
region-exceeds-file error, not with a malformed-security-directory error
(the code has no such error outcome). -/
theorem C3_counterexample :
    signatureDataSize 4 = 4294967292 ∧
    (ExtractDigitalSignature (constPE (.headers 4 4)) (constFS samplePath (List.range 20))
      samplePath).1 = .error .regionExceedsFile :=
  ⟨by decide, rfl⟩

/-- Claim C3 as amended: for an entry with non-zero fileOffset and
0 < size < 8, payloadSize is computed by wrapping uint32 subtraction as
size + 2^32 - 8, and extraction of any file shorter than 2^32 - 8 bytes
fails, but with the invalid-offset or region-exceeds-file error; no
malformed-security-directory error exists in the code. -/
theorem C3_small_size_wraps (parsePE : List Nat → PEParseResult)
    (fs : String → Option (List Nat)) (p : String) (file : List Nat)
    (vAddr size : Nat)
    (hp : ¬ trimSpace p = "") (hfs : fs p = some file)
    (hpe : parsePE file = .headers vAddr size)
    (hv : vAddr ≠ 0) (h1 : 0 < size) (h2 : size < SecurityDirHeaderSize)
    (hlen : file.length + SecurityDirHeaderSize ≤ U32) :
    signatureDataSize size = size + U32 - SecurityDirHeaderSize ∧
    ((ExtractDigitalSignature parsePE fs p).1 = .error .invalidOffset ∨
     (ExtractDigitalSignature parsePE fs p).1 = .error .regionExceedsFile) := by
  have h2n : size < 8 := by simpa [SecurityDirHeaderSize] using h2
  have hlenn : file.length + 8 ≤ 4294967296 := by
    simpa [SecurityDirHeaderSize, U32] using hlen
  have hsd : signatureDataSize size = size + U32 - SecurityDirHeaderSize := by
    simp only [signatureDataSize, SecurityDirHeaderSize, U32]
    omega
  refine ⟨hsd, ?_⟩
  by_cases hoff : file.length ≤ signatureOffset vAddr
  · left
    unfold ExtractDigitalSignature
    rw [if_neg hp]
    simp only [hfs, hpe]
    rw [if_neg (by omega), if_neg (by simp only [MaxSignatureSize]; omega),
        if_pos (Or.inr hoff)]
  · right
    have hbig : file.length < signatureOffset vAddr + signatureDataSize size := by
      rw [hsd]
      simp only [SecurityDirHeaderSize, U32]
      omega
    unfold ExtractDigitalSignature
    rw [if_neg hp]
    simp only [hfs, hpe]
    rw [if_neg (by omega), if_neg (by simp only [MaxSignatureSize]; omega),
        if_neg (by omega), if_pos hbig]

/-- Witness for the amended C3 at a concrete container. -/
theorem C3_witness :
    signatureDataSize 4 = 4 + U32 - SecurityDirHeaderSize ∧
    ((ExtractDigitalSignature (constPE (.headers 4 4)) (constFS samplePath (List.range 20))
      samplePath).1 = .error .invalidOffset ∨
     (ExtractDigitalSignature (constPE (.headers 4 4)) (constFS samplePath (List.range 20))
      samplePath).1 = .error .regionExceedsFile) :=
  C3_small_size_wraps _ _ _ (List.range 20) 4 4 (by decide) rfl rfl (by decide)
    (by decide) (by decide) (by decide)

/-- Counterexample for C1: the entry (4, 6) is non-zero and its declared
region lies entirely inside the 20-byte file, yet extraction fails (with
the region-exceeds-file error caused by the wrapped payload size) instead
of returning size - 8 bytes. -/
theorem C1_counterexample :
    ((4 : Nat) ≠ 0 ∧ (6 : Nat) ≠ 0 ∧ 4 + 6 ≤ (List.range 20).length) ∧
    (ExtractDigitalSignature (constPE (.headers 4 6)) (constFS samplePath (List.range 20))
      samplePath).1 = .error .regionExceedsFile :=
  ⟨by decide, rfl⟩

/-- Claim C1 as amended: for a non-zero entry with
8 ≤ size ≤ MaxSignatureSize, non-wrapping offset arithmetic
(fileOffset + 8 < 2^32), fileOffset + 8 strictly inside the file and the
declared region inside the file, extraction succeeds and returns exactly
size - 8 bytes, which are the bytes of the file starting at offset
fileOffset + 8; the buffer is never truncated or zero padded. -/
theorem C1_exact_extraction (parsePE : List Nat → PEParseResult)
    (fs : String → Option (List Nat)) (p : String) (file : List Nat)
    (vAddr size : Nat)
    (hp : ¬ trimSpace p = "") (hfs : fs p = some file)
    (hpe : parsePE file = .headers vAddr size)
    (hv : vAddr ≠ 0) (h8 : SecurityDirHeaderSize ≤ size)
    (hmax : size ≤ MaxSignatureSize)
    (hw : vAddr + SecurityDirHeaderSize < U32)
    (ho : vAddr + SecurityDirHeaderSize < file.length)
    (hr : vAddr + size ≤ file.length) :
    (ExtractDigitalSignature parsePE fs p).1
      = .ok (readAt file (vAddr + SecurityDirHeaderSize) (size - SecurityDirHeaderSize)) ∧
    (readAt file (vAddr + SecurityDirHeaderSize) (size - SecurityDirHeaderSize)).length
      = size - SecurityDirHeaderSize ∧
    (∀ i, i < size - SecurityDirHeaderSize →
      (readAt file (vAddr + SecurityDirHeaderSize) (size - SecurityDirHeaderSize))[i]?
        = file[vAddr + SecurityDirHeaderSize + i]?) := by
  simp only [SecurityDirHeaderSize, MaxSignatureSize, U32] at h8 hmax hw ho hr ⊢
  have hOff : signatureOffset vAddr = vAddr + 8 := by
    simp only [signatureOffset, SecurityDirHeaderSize, U32]
    omega
  have hSds : signatureDataSize size = size - 8 := by
    simp only [signatureDataSize, SecurityDirHeaderSize, U32]
    omega
  have hlenRead : (readAt file (vAddr + 8) (size - 8)).length = size - 8 := by
    simp only [readAt, List.length_take, List.length_drop]
    omega
  refine ⟨?_, hlenRead, ?_⟩
  · unfold ExtractDigitalSignature
    rw [if_neg hp]
    simp only [hfs, hpe, hOff, hSds]
    rw [if_neg (by omega), if_neg (by simp only [MaxSignatureSize]; omega),
        if_neg (by omega), if_neg (by omega), if_neg (by simp [hlenRead])]
  · intro i hi
    simp only [readAt]
    rw [List.getElem?_take_of_lt hi, List.getElem?_drop]

/-- Witness for the amended C1 at a concrete container. -/
theorem C1_witness :
    (ExtractDigitalSignature (constPE (.headers 4 16)) (constFS samplePath (List.range 30))
      samplePath).1
      = .ok (readAt (List.range 30) (4 + SecurityDirHeaderSize) (16 - SecurityDirHeaderSize)) :=
  (C1_exact_extraction _ _ _ (List.range 30) 4 16 (by decide) rfl rfl (by decide) (by decide)
    (by decide) (by decide) (by decide) (by decide)).1

/-- Counterexample for C10: the entry (8, 8) has a non-zero in-bounds
fileOffset and its declared region [8, 16) lies inside the 16-byte file,
yet extraction fails with the invalid-offset error instead of returning an
empty byte sequence, because signatureOffset 16 equals the file length. -/
theorem C10_counterexample :
    ((8 : Nat) ≠ 0 ∧ 8 + 8 ≤ (List.range 16).length) ∧
    (ExtractDigitalSignature (constPE (.headers 8 8)) (constFS samplePath (List.range 16))
      samplePath).1 = .error .invalidOffset :=
  ⟨by decide, rfl⟩

/-- Claim C10 as amended: for a non-zero entry with size exactly 8 and
non-wrapping arithmetic, extraction succeeds with an empty byte sequence
exactly when fileOffset + 8 is strictly below the file length; when the
declared region ends exactly at end-of-file the offset check rejects it. -/
theorem C10_empty_payload (parsePE : List Nat → PEParseResult)
    (fs : String → Option (List Nat)) (p : String) (file : List Nat)
    (vAddr : Nat)
    (hp : ¬ trimSpace p = "") (hfs : fs p = some file)
    (hpe : parsePE file = .headers vAddr SecurityDirHeaderSize)
    (hv : vAddr ≠ 0) (hw : vAddr + SecurityDirHeaderSize < U32)
    (ho : vAddr + SecurityDirHeaderSize < file.length) :
    (ExtractDigitalSignature parsePE fs p).1 = .ok [] := by
  have hw8 : vAddr + 8 < 4294967296 := by simpa [SecurityDirHeaderSize, U32] using hw
  have ho8 : vAddr + 8 < file.length := by simpa [SecurityDirHeaderSize] using ho
  have hOff : signatureOffset vAddr = vAddr + 8 := by
    simp only [signatureOffset, SecurityDirHeaderSize, U32]
    omega
  have hSds : signatureDataSize SecurityDirHeaderSize = 0 := by decide
  unfold ExtractDigitalSignature
  rw [if_neg hp]
  simp only [hfs, hpe, hOff, hSds]
  rw [if_neg (by simp only [SecurityDirHeaderSize]; omega),
      if_neg (by simp only [MaxSignatureSize, SecurityDirHeaderSize]; omega),
      if_neg (by omega), if_neg (by omega)]
  simp [readAt]

/-- Witness for the amended C10 at a concrete container. -/
theorem C10_witness :
    (ExtractDigitalSignature (constPE (.headers 8 SecurityDirHeaderSize))
      (constFS samplePath (List.range 20)) samplePath).1 = .ok [] :=
  C10_empty_payload _ _ _ (List.range 20) 8 (by decide) rfl rfl (by decide) (by decide)
    (by decide)

/-- Claim C2 failing input: for the attacker-controlled fileOffset
4294967288 the uint32 addition fileOffset + 8 wraps to 0 before the int64
widening, so the bounds checks compare 0 instead of the mathematical sum
2^32; on a 100-byte file, whose length the true sum far exceeds, extraction
succeeds and returns the first 8 bytes of the file. -/
theorem C2_offset_wraps :
    signatureOffset 4294967288 = 0 ∧
    U32 ≤ 4294967288 + SecurityDirHeaderSize ∧
    (List.range 100).length < 4294967288 + SecurityDirHeaderSize ∧
    ExtractDigitalSignature (constPE (.headers 4294967288 16))
      (constFS samplePath (List.range 100)) samplePath
      = (.ok (readAt (List.range 100) 0 8),
         [.openEv samplePath, .statEv, .readEv 0 8]) :=
  ⟨rfl, by decide, by decide, rfl⟩

/-- Claim C9: when extraction succeeds but the PKCS#7 collaborator rejects
the bytes structurally, validation fails with the structure-invalid error,
which is distinct from every wrapped extraction error and from the
verification-failed error; when structural parsing succeeds but
verification fails, validation fails with the verification-failed error. -/
theorem C9_structure_and_verification (parsePE : List Nat → PEParseResult)
    (oracle : Pkcs7Oracle) (fs : String → Option (List Nat)) (p : String)
    (buf : List Nat)
    (hx : (ExtractDigitalSignature parsePE fs p).1 = .ok buf) :
    (oracle.parses buf = false →
      (IsValidDigitalSignature parsePE oracle fs p).1 = .error .structureInvalid) ∧
    (oracle.parses buf = true → oracle.verifies buf = false →
      (IsValidDigitalSignature parsePE oracle fs p).1 = .error .verificationFailed) ∧
    (∀ e : ExtractError, ValidationError.structureInvalid ≠ .extractionFailed e) ∧
    ValidationError.structureInvalid ≠ .verificationFailed := by
  have hp : ¬ trimSpace p = "" := by
    intro ht
    rw [extract_trim_empty parsePE fs p ht] at hx
    exact absurd hx (by simp)
  have hpair : ExtractDigitalSignature parsePE fs p
      = (.ok buf, (ExtractDigitalSignature parsePE fs p).2) := by
    rw [← hx]
  refine ⟨?_, ?_, ?_, ?_⟩
  · intro hpf
    unfold IsValidDigitalSignature
    rw [if_neg hp, hpair]
    simp [hpf]
  · intro hpf hvf
    unfold IsValidDigitalSignature
    rw [if_neg hp, hpair]
    simp [hpf, hvf]
  · intro e h
    exact ValidationError.noConfusion h
  · intro h
    exact ValidationError.noConfusion h

/-- Witness for C9 at a concrete container and a rejecting collaborator. -/
theorem C9_witness :
    (IsValidDigitalSignature (constPE (.headers 4 16)) oracleReject
      (constFS samplePath (List.range 30)) samplePath).1 = .error .structureInvalid :=
  (C9_structure_and_verification (constPE (.headers 4 16)) oracleReject
    (constFS samplePath (List.range 30)) samplePath
    (readAt (List.range 30) 12 8) rfl).1 rfl
